import Mathlib

/-!
Verification of the tool-calling bridge of the streamlit_bot repository.

The development shallowly embeds the Python source:

* `src/app.py`: `get_tool_definitions`, `execute_tool`, `get_chat_response`
* `src/agents/ecommerce.py`: `check_order_status` and the `ORDERS` table
* `src/agents/stock.py`: the `get_stock_price` tool signature and docstring
* `src/agents/weather.py`: `get_weather_forecast` and its lookup tables
* `src/mcp_client/weather_client.py`: `MCPWeatherClient.get_forecast`

Conventions of the embedding:

* Python strings are Lean `String`s; the Python `str` operations used by the
  source (`upper`, `lower`, `strip`, `title`, `split`, `startswith`, `in`)
  are re-implemented below on the character list of the string.
* Python dicts/JSON values are the inductive `Json`; `json.dumps` is modelled
  by the executable serializer `Json.dumps` (the exact text layout of the
  serializer is not load-bearing for any claim).
* A Python coroutine that can raise is a function into `PyResult α`:
  `.ok v` for a normal return, `.exn msg` for an exception carrying `str(e)`.
* External collaborators (the OpenAI completion endpoint, `json.loads`,
  the HTTP session of the weather client, the `datetime` library) are
  parameters of the embedded functions, exactly at their call interfaces.
* Functions that perform external calls additionally return a trace of the
  calls they made (completion requests issued, tool callables invoked),
  so that "no second completion call" and "no tool dispatch" are statable.
-/

/-! ## Python string primitives -/

/-- Python `str.upper` (ASCII, as used by the source on ASCII data). -/
def pyUpper (s : String) : String :=
  String.mk (s.toList.map Char.toUpper)

/-- Python `str.lower` (ASCII, as used by the source on ASCII data). -/
def pyLower (s : String) : String :=
  String.mk (s.toList.map Char.toLower)

/-- Whitespace as stripped by Python `str.strip`. -/
def pyIsSpace (c : Char) : Bool :=
  c = ' ' || c = '\t' || c = '\n' || c = '\r' || c = '\x0b' || c = '\x0c'

/-- Python `str.strip`. -/
def pyStrip (s : String) : String :=
  String.mk (((s.toList.dropWhile pyIsSpace).reverse.dropWhile pyIsSpace).reverse)

/-- Python `s.startswith(pre)`. -/
def pyStartsWith (s pre : String) : Bool :=
  pre.toList.isPrefixOf s.toList

/-- Python substring membership `pat in s`, on character lists. -/
def listContainsSeq (pat : List Char) : List Char → Bool
  | [] => pat.isEmpty
  | c :: rest => pat.isPrefixOf (c :: rest) || listContainsSeq pat rest

/-- Python substring membership `pat in s`. -/
def strContains (s pat : String) : Bool :=
  listContainsSeq pat.toList s.toList

/-- Python `str.split(sep)` for a one-character separator, on lists:
`"".split(sep) == [""]`, separators delimit possibly empty pieces. -/
def pySplitChar (sep : Char) : List Char → List (List Char)
  | [] => [[]]
  | c :: rest =>
    let r := pySplitChar sep rest
    if c = sep then [] :: r
    else
      match r with
      | [] => [[c]]
      | h :: t => (c :: h) :: t

/-- Python `doc.split("\n")`. -/
def pyLines (s : String) : List String :=
  (pySplitChar '\n' s.toList).map String.mk

/-- Python `line.split(":", 1)[-1]`: the remainder after the first colon,
or the whole string when it has no colon. -/
def afterFirstColon (line : String) : String :=
  match line.toList.dropWhile (fun c => c ≠ ':') with
  | [] => line
  | _ :: rest => String.mk rest

/-- Python `xs[-n:]`. -/
def pyLastN (n : Nat) (xs : List α) : List α :=
  xs.drop (xs.length - n)

/-- Python `str.title` as it acts on the inputs of the source: an alphabetic
character is uppercased when the previous character is not alphabetic and
lowercased otherwise. -/
def pyTitle (s : String) : String :=
  String.mk ((s.toList.foldl
    (fun (acc : List Char × Bool) c =>
      if c.isAlpha then
        ((if acc.2 then c.toLower else c.toUpper) :: acc.1, true)
      else (c :: acc.1, false))
    ([], false)).1.reverse)

/-! ## JSON values and the exception model -/

/-- Python dict/list/scalar values as produced by the tools of this
repository.  Numeric values of the source that are floats are modelled by
integers; no claim depends on fractional arithmetic. -/
inductive Json where
  | null : Json
  | bool : Bool → Json
  | num : Int → Json
  | str : String → Json
  | arr : List Json → Json
  | obj : List (String × Json) → Json
deriving Repr

mutual

/-- Model of `json.dumps`: an executable serializer for `Json`.  The claims
use it only as a fixed injective-enough rendering of tool results; the
whitespace layout of the Python original (`indent=2`) is not reproduced. -/
def Json.dumps : Json → String
  | .null => "null"
  | .bool true => "true"
  | .bool false => "false"
  | .num n => toString n
  | .str s => "\"" ++ s ++ "\""
  | .arr xs => "[" ++ Json.dumpsList xs ++ "]"
  | .obj fs => "\x7b" ++ Json.dumpsFields fs ++ "\x7d"

/-- Comma-joined serialization of a list of values. -/
def Json.dumpsList : List Json → String
  | [] => ""
  | [x] => Json.dumps x
  | x :: xs => Json.dumps x ++ ", " ++ Json.dumpsList xs

/-- Comma-joined serialization of the fields of an object. -/
def Json.dumpsFields : List (String × Json) → String
  | [] => ""
  | [(k, v)] => "\"" ++ k ++ "\": " ++ Json.dumps v
  | (k, v) :: fs => "\"" ++ k ++ "\": " ++ Json.dumps v ++ ", " ++ Json.dumpsFields fs

end

/-- Field lookup in a JSON object (`d.get(k)` on a dict value). -/
def Json.field (j : Json) (k : String) : Option Json :=
  match j with
  | .obj fs => fs.lookup k
  | _ => none

/-- Python dict assignment `d[k] = v`: replace the first binding of `k`,
or append the binding when `k` is absent. -/
def setField : List (String × Json) → String → Json → List (String × Json)
  | [], k, v => [(k, v)]
  | (k', v') :: fs, k, v =>
    if k' = k then (k, v) :: fs else (k', v') :: setField fs k v

/-- Outcome of running a Python callable: a value, or an exception carrying
the text `str(e)`. -/
inductive PyResult (α : Type) where
  | ok : α → PyResult α
  | exn : String → PyResult α
deriving Repr

/-! ## Tool model and `get_tool_definitions` (src/app.py lines 228-283) -/

/-- The type annotation of a Python parameter, as inspected by
`get_tool_definitions`:  `inspect.Parameter.empty`, `int`, `float`, `bool`,
`str`, or any other annotation. -/
inductive Annot where
  | empty : Annot
  | int : Annot
  | float : Annot
  | bool : Annot
  | str : Annot
  | other : Annot
deriving Repr, DecidableEq

/-- One declared parameter of a tool callable, as seen through
`inspect.signature`: its name, annotation, and whether it has a default. -/
structure Param where
  name : String
  annot : Annot
  hasDefault : Bool
deriving Repr

/-- A tool callable: its `__name__`, its `inspect.signature` parameters in
declaration order, its `__doc__` (`none` models Python `None`), and its body,
which receives the decoded JSON argument mapping and either returns a dict
or raises. -/
structure Tool where
  name : String
  params : List Param
  doc : Option String
  body : Json → PyResult Json

/-- The wire type string chosen for a parameter annotation
(src/app.py lines 239-247). -/
def param_type_of (a : Annot) : String :=
  match a with
  | .int => "integer"
  | .float => "number"
  | .bool => "boolean"
  | _ => "string"

/-- Parameter description extraction (src/app.py lines 249-257): if
`"<name>:"` occurs in the docstring, the description is the text after the
first colon of the first docstring line containing `"<name>:"`, stripped;
otherwise the placeholder `"Parameter: <name>"`. -/
def param_desc (doc : String) (name : String) : String :=
  let pat := name ++ ":"
  let dflt := "Parameter: " ++ name
  if strContains doc pat then
    match (pyLines doc).find? (fun line => strContains line pat) with
    | some line => pyStrip (afterFirstColon line)
    | none => dflt
  else dflt

/-- Tool description (src/app.py line 274):
`tool.__doc__.split("\n")[0] if tool.__doc__ else f"Execute {tool.__name__}"`.
An empty docstring is falsy in Python, hence also the fallback. -/
def tool_description (t : Tool) : String :=
  match t.doc with
  | some d => if d = "" then "Execute " ++ t.name else (pyLines d).headD ""
  | none => "Execute " ++ t.name

/-- One property entry of the produced schema (`params[name] = {...}`). -/
structure ParamSchema where
  name : String
  type : String
  description : String
deriving Repr

/-- One schema entry of the list returned by `get_tool_definitions`
(the `function` payload of the `{"type": "function", ...}` wrapper). -/
structure FunctionDef where
  name : String
  description : String
  properties : List ParamSchema
  required : List String
deriving Repr

/-- `get_tool_definitions` (src/app.py lines 228-283): one schema entry per
tool, properties in declaration order, `required` collecting the parameters
without defaults in declaration order. -/
def get_tool_definitions (tools : List Tool) : List FunctionDef :=
  tools.map (fun tool =>
    { name := tool.name
      description := tool_description tool
      properties := tool.params.map (fun p =>
        { name := p.name
          type := param_type_of p.annot
          description := param_desc (tool.doc.getD "") p.name })
      required := (tool.params.filter (fun p => !p.hasDefault)).map Param.name })

/-! ## `execute_tool` (src/app.py lines 286-297) -/

/-- The dict comprehension `{t.__name__: t for t in tools}`: inserted in
list order, a later tool with the same name overwriting an earlier one. -/
def dictInsertTool : List (String × Tool) → String → Tool → List (String × Tool)
  | [], k, v => [(k, v)]
  | (k', v') :: m, k, v =>
    if k' = k then (k, v) :: m else (k', v') :: dictInsertTool m k v

/-- `tools_map = {t.__name__: t for t in tools}`. -/
def build_tools_map (tools : List Tool) : List (String × Tool) :=
  tools.foldl (fun m t => dictInsertTool m t.name t) []

/-- `execute_tool` (src/app.py lines 286-297).  The second component of the
result records which callables were actually invoked (awaited), so that
"without invoking any callable" is statable; the Python function returns
only the first component. -/
def execute_tool (tool_name : String) (tools : List Tool) (args : Json) :
    Json × List String :=
  let tools_map := build_tools_map tools
  match tools_map.lookup tool_name with
  | some t =>
    match t.body args with
    | .ok result => (result, [tool_name])
    | .exn e =>
      (Json.obj [("error", Json.str ("Tool execution failed: " ++ e))], [tool_name])
  | none =>
    (Json.obj [("error", Json.str ("Tool '" ++ tool_name ++ "' not found"))], [])

/-! ## `get_chat_response` (src/app.py lines 300-394) -/

/-- One chat-history entry as passed by the UI: `{"role": ..., "content": ...}`. -/
structure HistMsg where
  role : String
  content : String
deriving Repr

/-- The agent configuration; `get_chat_response` reads only `description`
(the persona used as the system prompt, src/app.py line 330). -/
structure AgentConfig where
  description : String
deriving Repr

/-- One tool-call request in the model response:
`{id, function.name, function.arguments}` with the raw JSON argument text. -/
structure ToolCall where
  id : String
  name : String
  argumentsJson : String
deriving Repr

/-- The message of `response.choices[0].message`: text content (possibly
Python `None`) and the list of requested tool calls (the empty list models
a falsy `tool_calls`). -/
structure AssistantMessage where
  content : Option String
  tool_calls : List ToolCall
deriving Repr

/-- One entry of the transcript list `messages`: a plain role/content dict,
a tool-result dict carrying `tool_call_id`, or the appended assistant
message object with its tool calls (src/app.py line 358). -/
inductive TranscriptEntry where
  | msg : String → String → TranscriptEntry
  | toolMsg : String → String → TranscriptEntry
  | assistantToolCalls : AssistantMessage → TranscriptEntry
deriving Repr

/-- One call to `client.chat.completions.create`: the transcript, the
optional tool schemas and tool choice (`none` models passing `None`),
and the fixed generation constants.  The float `temperature=0.7` is recorded
in tenths. -/
structure CompletionRequest where
  messages : List TranscriptEntry
  tools : Option (List FunctionDef)
  tool_choice : Option String
  model : String
  temperature_tenths : Nat
  max_tokens : Nat
deriving Repr

/-- What `get_chat_response` observably does: the returned string (`none`
models returning Python `None` content), the completion requests issued in
order, and the tool callables invoked in order. -/
structure ChatOutcome where
  result : Option String
  requests : List CompletionRequest
  invoked : List String
deriving Repr

/-- The fixed setup-instructions string returned when no API key is
configured (src/app.py lines 310-320). -/
def api_key_required_message : String :=
  "⚠️ **API Key Required**\n        \nPlease set your OpenAI API key to enable the chatbot:\n\n**For local development:**\n```bash\nexport OPENAI_API_KEY=\"your-key-here\"\n```\n\n**For Streamlit Cloud:**\nAdd `OPENAI_API_KEY` in Settings → Secrets"

/-- The fixed authentication-error string (src/app.py line 390). -/
def authentication_error_message : String :=
  "❌ **Authentication Error**: Please check your OpenAI API key."

/-- The fixed rate-limit string (src/app.py line 392). -/
def rate_limit_message : String :=
  "⏳ **Rate Limited**: Too many requests. Please wait a moment and try again."

/-- The classification of a request-level exception message performed by the
outer `except` block (src/app.py lines 387-394). -/
def classify_error (error_msg : String) : String :=
  let lower := pyLower error_msg
  if strContains lower "api_key" || strContains lower "authentication" then
    authentication_error_message
  else if strContains lower "rate_limit" then
    rate_limit_message
  else
    "❌ **Error**: " ++ error_msg

/-- The transcript composed before the first completion call
(src/app.py lines 329-341): system prompt, the last 10 history entries,
then the user message. -/
def build_messages (user_message : String) (chat_history : List HistMsg)
    (agent_config : AgentConfig) : List TranscriptEntry :=
  [TranscriptEntry.msg "system" agent_config.description]
    ++ (pyLastN 10 chat_history).map (fun m => TranscriptEntry.msg m.role m.content)
    ++ [TranscriptEntry.msg "user" user_message]

/-- The first completion request (src/app.py lines 344-351): tool schemas
and `tool_choice="auto"` are passed only when the schema list is non-empty
(`tool_definitions if tool_definitions else None`). -/
def first_request (user_message : String) (chat_history : List HistMsg)
    (agent_config : AgentConfig) (tools : List Tool) : CompletionRequest :=
  let tool_definitions := get_tool_definitions tools
  { messages := build_messages user_message chat_history agent_config
    tools := if tool_definitions.isEmpty then none else some tool_definitions
    tool_choice := if tool_definitions.isEmpty then none else some "auto"
    model := "gpt-4o-mini"
    temperature_tenths := 7
    max_tokens := 1000 }

/-- The tool-execution loop (src/app.py lines 361-373): for each tool call
in model order, decode its arguments with `json.loads` (a decode exception
propagates out of the loop), run `execute_tool`, and append a tool-role
message with the serialized result, tagged with the call id.  Returns the
final transcript or the escaping exception, together with the trace of
invoked callables. -/
def tool_call_loop (jloads : String → PyResult Json) (tools : List Tool) :
    List ToolCall → List TranscriptEntry →
    PyResult (List TranscriptEntry) × List String
  | [], messages => (.ok messages, [])
  | tool_call :: rest, messages =>
    match jloads tool_call.argumentsJson with
    | .exn e => (.exn e, [])
    | .ok tool_args =>
      let r := execute_tool tool_call.name tools tool_args
      let messages' := messages
        ++ [TranscriptEntry.toolMsg tool_call.id (Json.dumps r.1)]
      let rec_result := tool_call_loop jloads tools rest messages'
      (rec_result.1, r.2 ++ rec_result.2)

/-- The transcript of the second completion request as determined by the
first response `am` and the decoded arguments `argsOf` of its tool calls:
the composed transcript, then the assistant tool-call message, then one
tool-role message per requested call, in order. -/
def second_request (user_message : String) (chat_history : List HistMsg)
    (agent_config : AgentConfig) (tools : List Tool) (am : AssistantMessage)
    (argsOf : ToolCall → Json) : CompletionRequest :=
  { messages := build_messages user_message chat_history agent_config
      ++ [TranscriptEntry.assistantToolCalls am]
      ++ am.tool_calls.map (fun tc =>
            TranscriptEntry.toolMsg tc.id
              (Json.dumps (execute_tool tc.name tools (argsOf tc)).1))
    tools := none
    tool_choice := none
    model := "gpt-4o-mini"
    temperature_tenths := 7
    max_tokens := 1000 }

/-- `get_chat_response` (src/app.py lines 300-394).  The external
collaborators appear as parameters: `jloads` is `json.loads`, `complete` is
`client.chat.completions.create` (both rounds go through the same endpoint),
`api_key` is the value returned by `get_api_key()` (the empty string models
a missing credential, which is falsy).  Everything inside the Python `try`
that can raise is a `PyResult`; an `.exn` anywhere lands in the
classification of `classify_error`. -/
def get_chat_response (jloads : String → PyResult Json)
    (complete : CompletionRequest → PyResult AssistantMessage)
    (api_key : String) (user_message : String) (chat_history : List HistMsg)
    (agent_config : AgentConfig) (tools : List Tool) : ChatOutcome :=
  if api_key = "" then
    { result := some api_key_required_message, requests := [], invoked := [] }
  else
    let req1 := first_request user_message chat_history agent_config tools
    match complete req1 with
    | .exn e => { result := some (classify_error e), requests := [req1], invoked := [] }
    | .ok assistant_message =>
      if assistant_message.tool_calls.isEmpty then
        { result := assistant_message.content, requests := [req1], invoked := [] }
      else
        let base := build_messages user_message chat_history agent_config
          ++ [TranscriptEntry.assistantToolCalls assistant_message]
        let loop := tool_call_loop jloads tools assistant_message.tool_calls base
        match loop.1 with
        | .exn e =>
          { result := some (classify_error e), requests := [req1], invoked := loop.2 }
        | .ok messages2 =>
          let req2 : CompletionRequest :=
            { messages := messages2, tools := none, tool_choice := none
              model := "gpt-4o-mini", temperature_tenths := 7, max_tokens := 1000 }
          match complete req2 with
          | .exn e =>
            { result := some (classify_error e), requests := [req1, req2]
              invoked := loop.2 }
          | .ok final_message =>
            { result := final_message.content, requests := [req1, req2]
              invoked := loop.2 }

/-! ## `check_order_status` (src/agents/ecommerce.py lines 113-153) -/

/-- One record of the mock order database; the float `total` of the source
is held in cents (the source only ever formats it with `:.2f`). -/
structure OrderRec where
  status : String
  items : List String
  total_cents : Int
  eta : String
  tracking : Option String
deriving Repr

/-- The `ORDERS` table (src/agents/ecommerce.py lines 47-76). -/
def ORDERS : List (String × OrderRec) :=
  [("ORD-1001",
    { status := "shipped"
      items := ["Wireless Bluetooth Headphones Pro", "Ergonomic Laptop Stand"]
      total_cents := 13998
      eta := "January 25, 2026"
      tracking := some "TRK789456123" }),
   ("ORD-1002",
    { status := "processing"
      items := ["Running Shoes UltraBoost"]
      total_cents := 12999
      eta := "January 28, 2026"
      tracking := none }),
   ("ORD-1003",
    { status := "delivered"
      items := ["Smart Coffee Maker Deluxe", "Premium Yoga Mat"]
      total_cents := 18998
      eta := "Delivered January 20, 2026"
      tracking := some "TRK123456789" }),
   ("ORD-1004",
    { status := "pending"
      items := ["HEPA Air Purifier"]
      total_cents := 19999
      eta := "January 30, 2026"
      tracking := none })]

/-- Python `f"${total:.2f}"` on a cent amount. -/
def format_money (cents : Int) : String :=
  let r := cents % 100
  "$" ++ toString (cents / 100) ++ "." ++
    (if r < 10 then "0" ++ toString r else toString r)

/-- The `status_emoji` mapping with its `.get(..., "📋")` default
(src/agents/ecommerce.py lines 130-135 and 140). -/
def status_emoji (status : String) : String :=
  ([("pending", "⏳"), ("processing", "📦"), ("shipped", "🚚"),
    ("delivered", "✅")].lookup status).getD "📋"

/-- The order-id normalization of `check_order_status`
(src/agents/ecommerce.py lines 123-126): uppercase, strip, and prepend
`"ORD-"` when that prefix is absent. -/
def normalize_order_id (order_id : String) : String :=
  let oid := pyStrip (pyUpper order_id)
  if pyStartsWith oid "ORD-" then oid else "ORD-" ++ oid

/-- `check_order_status` (src/agents/ecommerce.py lines 113-153). -/
def check_order_status (order_id : String) : Json :=
  let oid := normalize_order_id order_id
  match ORDERS.lookup oid with
  | some order =>
    Json.obj
      [("success", Json.bool true),
       ("order_id", Json.str oid),
       ("status", Json.str (status_emoji order.status ++ " " ++ pyTitle order.status)),
       ("items", Json.arr (order.items.map Json.str)),
       ("order_total", Json.str (format_money order.total_cents)),
       ("estimated_delivery", Json.str order.eta),
       ("tracking_number",
         match order.tracking with
         | some t => Json.str t
         | none => Json.null),
       ("tracking_available", Json.bool order.tracking.isSome)]
  | none =>
    Json.obj
      [("success", Json.bool false),
       ("error", Json.str ("Order '" ++ oid ++ "' not found")),
       ("suggestion",
         Json.str "Please verify your order ID. Valid formats: ORD-1001 or just 1001"),
       ("sample_orders",
         Json.arr [Json.str "ORD-1001", Json.str "ORD-1002",
                   Json.str "ORD-1003", Json.str "ORD-1004"])]

/-! ## The `get_stock_price` tool signature (src/agents/stock.py lines 60-69)

Only the introspected surface (name, parameters, docstring) is needed, for
the schema-builder claims; the body of the tool is irrelevant to them and is
modelled as an opaque successful return. -/

/-- The exact `__doc__` of `get_stock_price`. -/
def get_stock_price_doc : String :=
  "\n    Get the current stock price and daily performance for a ticker symbol.\n    \n    Args:\n        symbol: Stock ticker symbol (e.g., AAPL, GOOGL, MSFT, TSLA)\n    \n    Returns:\n        Dictionary containing current price, daily change, and stock information\n    "

/-- The introspected surface of `get_stock_price`:
`async def get_stock_price(symbol: str) -> dict`. -/
def get_stock_price_tool : Tool :=
  { name := "get_stock_price"
    params := [{ name := "symbol", annot := .str, hasDefault := false }]
    doc := some get_stock_price_doc
    body := fun _ => .ok (Json.obj [("success", Json.bool true)]) }

/-! ## Weather agent (src/agents/weather.py) -/

/-- One entry of `WEATHER_CONDITIONS` (src/agents/weather.py lines 49-62). -/
structure CondInfo where
  icon : String
  outdoor_score : Int
  description : String
deriving Repr

/-- `WEATHER_CONDITIONS` (src/agents/weather.py lines 49-62). -/
def WEATHER_CONDITIONS : List (String × CondInfo) :=
  [("Clear", { icon := "☀️", outdoor_score := 10, description := "Clear sky" }),
   ("Partly Cloudy", { icon := "⛅", outdoor_score := 8, description := "Partly cloudy" }),
   ("Cloudy", { icon := "☁️", outdoor_score := 6, description := "Cloudy" }),
   ("Overcast", { icon := "🌥️", outdoor_score := 5, description := "Overcast" }),
   ("Foggy", { icon := "🌫️", outdoor_score := 4, description := "Foggy conditions" }),
   ("Light Rain", { icon := "🌦️", outdoor_score := 3, description := "Light rain" }),
   ("Rainy", { icon := "🌧️", outdoor_score := 2, description := "Rainy" }),
   ("Heavy Rain", { icon := "🌧️", outdoor_score := 1, description := "Heavy rain" }),
   ("Snow", { icon := "🌨️", outdoor_score := 4, description := "Snowy" }),
   ("Heavy Snow", { icon := "❄️", outdoor_score := 2, description := "Heavy snow" }),
   ("Thunderstorm", { icon := "⛈️", outdoor_score := 1, description := "Thunderstorm" }),
   ("Unknown", { icon := "🌡️", outdoor_score := 5, description := "Weather data unavailable" })]

/-- `WMO_WEATHER_CODES` (src/agents/weather.py lines 65-94). -/
def WMO_WEATHER_CODES : List (Int × String) :=
  [(0, "Clear"), (1, "Clear"), (2, "Partly Cloudy"), (3, "Overcast"),
   (45, "Foggy"), (48, "Foggy"), (51, "Light Rain"), (53, "Light Rain"),
   (55, "Rainy"), (56, "Light Rain"), (57, "Rainy"), (61, "Light Rain"),
   (63, "Rainy"), (65, "Heavy Rain"), (66, "Light Rain"), (67, "Heavy Rain"),
   (71, "Snow"), (73, "Snow"), (75, "Heavy Snow"), (77, "Snow"),
   (80, "Light Rain"), (81, "Rainy"), (82, "Heavy Rain"), (85, "Snow"),
   (86, "Heavy Snow"), (95, "Thunderstorm"), (96, "Thunderstorm"),
   (99, "Thunderstorm")]

/-- `_map_weather_code` (src/agents/weather.py lines 113-115). -/
def map_weather_code (code : Int) : String :=
  (WMO_WEATHER_CODES.lookup code).getD "Unknown"

/-- `_get_condition_info` (src/agents/weather.py lines 118-120). -/
def get_condition_info (condition : String) : CondInfo :=
  (WEATHER_CONDITIONS.lookup condition).getD
    { icon := "🌡️", outdoor_score := 5, description := "Weather data unavailable" }

/-- `_celsius_to_fahrenheit` (src/agents/weather.py lines 123-125), on the
integer model of the float temperatures. -/
def celsius_to_fahrenheit (celsius : Int) : Int :=
  celsius * 9 / 5 + 32

/-- `_get_activity_recommendation` (src/agents/weather.py lines 128-141). -/
def get_activity_recommendation (outdoor_score : Int) (condition : String) : String :=
  if outdoor_score ≥ 8 then
    "☀️ Perfect weather for outdoor activities! Enjoy hiking, cycling, or a picnic."
  else if outdoor_score ≥ 6 then
    "⛅ Good conditions for outdoor plans. Maybe bring a light jacket."
  else if outdoor_score ≥ 4 then
    "🌥️ Decent weather, but consider indoor backup plans."
  else if strContains condition "Rain" || strContains condition "Snow" then
    "🌧️ Wet conditions - bring an umbrella or raincoat if going out."
  else if strContains condition "Thunderstorm" then
    "⛈️ Stay indoors! Thunderstorms expected - avoid open areas."
  else
    "🏠 Indoor activities recommended today."

/-- The `datetime` library at the call surface used by
`get_weather_forecast`: formatted current time, `strptime` of a daily date
followed by `%A` or `%b %d` formatting, the `now + timedelta(days=i)`
fallback with the same formats, and ISO-time-to-clock formatting of
sunrise/sunset values. -/
structure DateLib where
  now_str : String
  strptime_day_name : String → String
  strptime_month_day : String → String
  now_plus_day_name : Nat → String
  now_plus_month_day : Nat → String
  iso_to_clock : String → String

/-- The `daily` block of the Open-Meteo payload, typed with the fields read
by `get_weather_forecast`; float series are held as integers. -/
structure DailyData where
  time : List String
  weather_code : List Int
  temperature_2m_max : List Int
  temperature_2m_min : List Int
  precipitation_probability_max : List Int
  sunrise : List String
  sunset : List String
deriving Repr

/-- The `current` block of the Open-Meteo payload, typed with the fields
read by `get_weather_forecast`; floats are held as integers. -/
structure CurrentData where
  temperature_2m : Int
  relative_humidity_2m : Int
  weather_code : Int
  wind_speed_10m : Int
  uv_index : Int
  visibility : Int
deriving Repr

/-- The payload returned by `MCPWeatherClient.get_forecast`, typed with the
fields read by `get_weather_forecast`. -/
structure McpForecastData where
  current : CurrentData
  daily : DailyData
  timezone : String
  latitude : Int
  longitude : Int
deriving Repr

/-- The MCP client as seen by the weather agent: `get_forecast` may raise
(`.exn`, caught by the agent) or return `None` (`.ok none`) or data. -/
structure AgentWeatherClient where
  get_forecast : String → Int → PyResult (Option McpForecastData)

/-- One entry of the forecast list built by the loop of
`get_weather_forecast` (src/agents/weather.py lines 216-234), at index `i`. -/
def forecast_entry (dl : DateLib) (daily : DailyData) (temp_c : Int) (i : Nat) : Json :=
  let day_name :=
    if daily.time.isEmpty then dl.now_plus_day_name i
    else dl.strptime_day_name (daily.time.getD i "")
  let date_label :=
    if daily.time.isEmpty then dl.now_plus_month_day i
    else dl.strptime_month_day (daily.time.getD i "")
  let day_code := daily.weather_code.getD i 0
  let day_condition := map_weather_code day_code
  let day_info := get_condition_info day_condition
  let high_c := daily.temperature_2m_max.getD i (temp_c + 5)
  let low_c := daily.temperature_2m_min.getD i (temp_c - 5)
  let precip := daily.precipitation_probability_max.getD i 0
  Json.obj
    [("day", Json.str (if i = 0 then "Today" else day_name)),
     ("date", Json.str date_label),
     ("condition", Json.str (day_info.icon ++ " " ++ day_condition)),
     ("high", Json.str (toString (celsius_to_fahrenheit high_c) ++ "°F ("
        ++ toString high_c ++ "°C)")),
     ("low", Json.str (toString (celsius_to_fahrenheit low_c) ++ "°F ("
        ++ toString low_c ++ "°C)")),
     ("precipitation", Json.str (toString precip ++ "%")),
     ("outdoor_score", Json.str (toString day_info.outdoor_score ++ "/10"))]

/-- `get_weather_forecast` (src/agents/weather.py lines 148-281).
`client` models `_get_mcp_client()` (`none` when unavailable); `dl` is the
`datetime` surface.  The forecast loop length is
`min(days, len(daily_times))` with `days` already clamped to 1..7. -/
def get_weather_forecast (dl : DateLib) (client : Option AgentWeatherClient)
    (city : String) (days0 : Int) : Json :=
  let days := min (max days0 1) 7
  match client with
  | none =>
    Json.obj
      [("success", Json.bool false),
       ("city", Json.str (pyTitle city)),
       ("error", Json.str "Weather service unavailable"),
       ("message", Json.str "❌ Unable to connect to the MCP Weather Server. Please try again later."),
       ("suggestion", Json.str "The weather service may be starting up. Please wait a moment and try again."),
       ("checked_at", Json.str dl.now_str)]
  | some mcp_client =>
    match mcp_client.get_forecast city days with
    | .exn e =>
      Json.obj
        [("success", Json.bool false),
         ("city", Json.str (pyTitle city)),
         ("error", Json.str e),
         ("message", Json.str ("❌ Failed to retrieve weather for '" ++ city ++ "'.")),
         ("suggestion", Json.str "Please check the city name or try again later."),
         ("checked_at", Json.str dl.now_str)]
    | .ok none =>
      Json.obj
        [("success", Json.bool false),
         ("city", Json.str (pyTitle city)),
         ("error", Json.str "No data received"),
         ("message", Json.str ("❌ Could not retrieve weather data for '" ++ city ++ "'.")),
         ("suggestion", Json.str "Please check the city name spelling or try a major city nearby."),
         ("checked_at", Json.str dl.now_str)]
    | .ok (some mcp_data) =>
      let current := mcp_data.current
      let daily := mcp_data.daily
      let weather_code := current.weather_code
      let condition := map_weather_code weather_code
      let condition_info := get_condition_info condition
      let temp_c := current.temperature_2m
      let temp_f := celsius_to_fahrenheit temp_c
      let humidity := current.relative_humidity_2m
      let wind_speed_kmh := current.wind_speed_10m
      let wind_speed_mph := wind_speed_kmh * 621371 / 1000000
      let feels_like_c := temp_c - wind_speed_kmh / 10
      let feels_like_f := celsius_to_fahrenheit feels_like_c
      let forecast :=
        (List.range (min days (Int.ofNat daily.time.length)).toNat).map
          (forecast_entry dl daily temp_c)
      let sunrise0 := if daily.sunrise.isEmpty then "N/A" else daily.sunrise.headD "6:30 AM"
      let sunset0 := if daily.sunset.isEmpty then "N/A" else daily.sunset.headD "6:30 PM"
      let sunrise := if sunrise0 ≠ "N/A" && strContains sunrise0 "T"
        then dl.iso_to_clock sunrise0 else sunrise0
      let sunset := if sunset0 ≠ "N/A" && strContains sunset0 "T"
        then dl.iso_to_clock sunset0 else sunset0
      Json.obj
        [("success", Json.bool true),
         ("city", Json.str (pyTitle city)),
         ("current", Json.obj
           [("condition", Json.str (condition_info.icon ++ " " ++ condition)),
            ("description", Json.str condition_info.description),
            ("temperature", Json.str (toString temp_f ++ "°F (" ++ toString temp_c ++ "°C)")),
            ("feels_like", Json.str (toString feels_like_f ++ "°F (" ++ toString feels_like_c ++ "°C)")),
            ("humidity", Json.str (toString humidity ++ "%")),
            ("wind", Json.str (toString wind_speed_mph ++ " mph (" ++ toString wind_speed_kmh ++ " km/h)")),
            ("uv_index", Json.num current.uv_index),
            ("visibility", Json.str (toString (current.visibility / 1000) ++ "."
              ++ toString (current.visibility % 1000 / 100) ++ " km"))]),
         ("forecast", Json.arr forecast),
         ("activity_recommendation",
           Json.str (get_activity_recommendation condition_info.outdoor_score condition)),
         ("sunrise", Json.str sunrise),
         ("sunset", Json.str sunset),
         ("timezone", Json.str mcp_data.timezone),
         ("coordinates", Json.obj
           [("latitude", Json.num mcp_data.latitude),
            ("longitude", Json.num mcp_data.longitude)]),
         ("last_updated", Json.str dl.now_str),
         ("source", Json.str "Open-Meteo via MCP Server (Live Data)")]

/-! ## `MCPWeatherClient.get_forecast` (src/mcp_client/weather_client.py lines 114-148) -/

/-- The geocoding result used by the client (lines 66-73 of the client). -/
structure GeoLocation where
  latitude : Int
  longitude : Int
  name : String
  country : String
  timezone : String
  admin1 : String
deriving Repr

/-- The query parameters of the upstream forecast request
(src/mcp_client/weather_client.py lines 129-137). -/
structure ForecastParams where
  latitude : Int
  longitude : Int
  current : String
  hourly : String
  daily : String
  timezone : String
  forecast_days : Int
deriving Repr

/-- `MCPWeatherClient.get_forecast` (src/mcp_client/weather_client.py lines
114-148).  `geocode` models `_geocode_city` (cache included), `has_session`
the `_get_session()` result, `fetch` the HTTP GET of the weather API (an
`.exn` models any transport fault, caught and converted to `None`).  The
second component records the parameter sets of the upstream requests made. -/
def mcp_weather_get_forecast (geocode : String → Option GeoLocation)
    (fetch : ForecastParams → PyResult Json) (has_session : Bool)
    (city : String) (days0 : Int) : Option Json × List ForecastParams :=
  match geocode city with
  | none => (none, [])
  | some location =>
    if !has_session then (none, [])
    else
      let days := min (max days0 1) 7
      let params : ForecastParams :=
        { latitude := location.latitude
          longitude := location.longitude
          current := "temperature_2m,relative_humidity_2m,weather_code,wind_speed_10m,wind_direction_10m,uv_index,visibility"
          hourly := "temperature_2m,weather_code,precipitation_probability"
          daily := "weather_code,temperature_2m_max,temperature_2m_min,precipitation_probability_max,sunrise,sunset,uv_index_max"
          timezone := location.timezone
          forecast_days := days }
      (match fetch params with
       | .exn _ => none
       | .ok data =>
         match data with
         | .obj fs =>
           some (Json.obj (setField (setField (setField fs
               "city" (Json.str location.name))
               "country" (Json.str location.country))
               "timezone" (Json.str location.timezone)))
         | _ => none,
       [params])

/-! ## Concrete fixtures used by witness and counterexample theorems -/

/-- A minimal agent configuration. -/
def cfg0 : AgentConfig := { description := "You are a test agent." }

/-- A concrete tool whose body returns successfully. -/
def quote_tool : Tool :=
  { name := "get_quote"
    params := [{ name := "symbol", annot := .str, hasDefault := false }]
    doc := some "\n    Get a quote for a ticker.\n\n    Args:\n        symbol: Ticker symbol\n    "
    body := fun _ => .ok (Json.obj [("success", Json.bool true), ("price", Json.str "$185.50")]) }

/-- A concrete tool whose body always raises. -/
def raising_tool : Tool :=
  { name := "raising_tool"
    params := []
    doc := none
    body := fun _ => .exn "division by zero" }

/-- A decoded argument mapping. -/
def args_aapl : Json := Json.obj [("symbol", Json.str "AAPL")]

/-- A `json.loads` stand-in that always decodes to `args_aapl`. -/
def jloads_ok : String → PyResult Json := fun _ => .ok args_aapl

/-- The constant decoded-arguments function matching `jloads_ok`. -/
def argsOf0 : ToolCall → Json := fun _ => args_aapl

/-- A first-round response requesting one `get_quote` call. -/
def am_quote : AssistantMessage :=
  { content := some "calling tools"
    tool_calls := [{ id := "call_1", name := "get_quote", argumentsJson := "symbol-args" }] }

/-- A completion endpoint: tool calls in round one (schemas present),
a plain answer in round two (no schemas). -/
def complete_two_round : CompletionRequest → PyResult AssistantMessage := fun req =>
  match req.tools with
  | some _ => .ok am_quote
  | none => .ok { content := some "final answer", tool_calls := [] }

/-- A first-round response with no tool calls. -/
def am_plain : AssistantMessage := { content := some "plain answer", tool_calls := [] }

/-- A completion endpoint that never requests tools. -/
def complete_plain : CompletionRequest → PyResult AssistantMessage := fun _ => .ok am_plain

/-- A completion endpoint that always raises a rate-limit fault. -/
def complete_rate_limited : CompletionRequest → PyResult AssistantMessage :=
  fun _ => .exn "rate_limit exceeded"

/-- A completion endpoint whose second round (no schemas) raises. -/
def complete_second_faults : CompletionRequest → PyResult AssistantMessage := fun req =>
  match req.tools with
  | some _ => .ok am_quote
  | none => .exn "connection reset"

/-- A `json.loads` stand-in that always fails to decode. -/
def jloads_fails : String → PyResult Json :=
  fun _ => .exn "Expecting value: line 1 column 1 (char 0)"

/-- A first-round response whose single tool call carries undecodable
arguments (under `jloads_fails`). -/
def am_bad_args : AssistantMessage :=
  { content := some "calling tools"
    tool_calls := [{ id := "call_1", name := "get_quote", argumentsJson := "not json" }] }

/-- A completion endpoint producing `am_bad_args`. -/
def complete_bad_args : CompletionRequest → PyResult AssistantMessage :=
  fun _ => .ok am_bad_args

/-- A constant `datetime` surface. -/
def date_lib0 : DateLib :=
  { now_str := "2026-01-01 00:00:00"
    strptime_day_name := fun _ => "Monday"
    strptime_month_day := fun _ => "Jan 01"
    now_plus_day_name := fun _ => "Monday"
    now_plus_month_day := fun _ => "Jan 01"
    iso_to_clock := fun _ => "06:30 AM" }

/-- A concrete two-day Open-Meteo daily block. -/
def daily0 : DailyData :=
  { time := ["2026-01-01", "2026-01-02"]
    weather_code := [0, 61]
    temperature_2m_max := [10, 12]
    temperature_2m_min := [2, 3]
    precipitation_probability_max := [5, 40]
    sunrise := ["2026-01-01T06:30"]
    sunset := ["2026-01-01T18:30"] }

/-- A concrete Open-Meteo forecast payload. -/
def mcp_data0 : McpForecastData :=
  { current := { temperature_2m := 8, relative_humidity_2m := 60, weather_code := 0
                 wind_speed_10m := 10, uv_index := 2, visibility := 10000 }
    daily := daily0
    timezone := "UTC"
    latitude := 51
    longitude := 0 }

/-- A weather client that always returns `mcp_data0`. -/
def weather_client0 : AgentWeatherClient :=
  { get_forecast := fun _ _ => .ok (some mcp_data0) }

/-- A geocoder that always resolves to one location. -/
def geo0 : String → Option GeoLocation := fun _ =>
  some { latitude := 51, longitude := 0, name := "London", country := "United Kingdom"
         timezone := "UTC", admin1 := "" }

/-- An upstream fetch that returns an empty payload. -/
def fetch0 : ForecastParams → PyResult Json := fun _ => .ok (Json.obj [])

/-- The parameter set `mcp_weather_get_forecast geo0 fetch0 true "London" 10`
sends upstream (with the 1..7 clamp applied to 10). -/
def params0 : ForecastParams :=
  { latitude := 51
    longitude := 0
    current := "temperature_2m,relative_humidity_2m,weather_code,wind_speed_10m,wind_direction_10m,uv_index,visibility"
    hourly := "temperature_2m,weather_code,precipitation_probability"
    daily := "weather_code,temperature_2m_max,temperature_2m_min,precipitation_probability_max,sunrise,sunset,uv_index_max"
    timezone := "UTC"
    forecast_days := 7 }

/-- Defaults used to state index-wise facts with `List.getD`. -/
def default_tool : Tool :=
  { name := "", params := [], doc := none, body := fun _ => .ok Json.null }

/-- Default schema entry for `List.getD`. -/
def default_function_def : FunctionDef :=
  { name := "", description := "", properties := [], required := [] }

/-- Default property entry for `List.getD`. -/
def default_param_schema : ParamSchema := { name := "", type := "", description := "" }

/-- Default parameter for `List.getD`. -/
def default_param : Param := { name := "", annot := .empty, hasDefault := false }

/-- The description the spec claims (first non-empty documentation line),
stated in the claim's own words for comparison against `tool_description`. -/
def first_nonempty_line (d : String) : String :=
  ((pyLines d).filter (fun l => l ≠ "")).headD ""

/-! ## Lemmas about the embedding -/

theorem lookup_dictInsertTool (m : List (String × Tool)) (k : String) (v : Tool)
    (k' : String) :
    (dictInsertTool m k v).lookup k' = if k' = k then some v else m.lookup k' := by
  induction m with
  | nil =>
    by_cases h : k' = k
    · simp [dictInsertTool, List.lookup, h]
    · have hb : (k' == k) = false := beq_eq_false_iff_ne.mpr h
      simp [dictInsertTool, List.lookup, hb, h]
  | cons hd tl ih =>
    obtain ⟨k1, v1⟩ := hd
    simp only [dictInsertTool]
    by_cases h1 : k1 = k
    · subst h1
      rw [if_pos rfl]
      by_cases h2 : k' = k1
      · subst h2
        simp [List.lookup]
      · have hb : (k' == k1) = false := beq_eq_false_iff_ne.mpr h2
        simp [List.lookup, hb, h2]
    · rw [if_neg h1]
      by_cases h2 : k' = k1
      · subst h2
        have hk : ¬ k' = k := fun hh => h1 hh
        simp [List.lookup, hk]
      · have hb : (k' == k1) = false := beq_eq_false_iff_ne.mpr h2
        simp [List.lookup, hb, ih]

theorem lookup_foldl_insert (ts : List Tool) (m : List (String × Tool)) (k : String) :
    (ts.foldl (fun m t => dictInsertTool m t.name t) m).lookup k
      = (ts.reverse.find? (fun t => t.name == k)).or (m.lookup k) := by
  induction ts generalizing m with
  | nil => simp
  | cons t ts ih =>
    rw [List.foldl_cons, ih, List.reverse_cons, List.find?_append, Option.or_assoc,
      lookup_dictInsertTool]
    congr 1
    by_cases h : t.name = k
    · have hb : (t.name == k) = true := beq_iff_eq.mpr h
      simp [List.find?, hb, h.symm, Option.or]
    · have hb : (t.name == k) = false := beq_eq_false_iff_ne.mpr h
      have hk : ¬ k = t.name := fun hh => h hh.symm
      simp [List.find?, hb, hk, Option.or]

theorem lookup_build_tools_map (tools : List Tool) (k : String) :
    (build_tools_map tools).lookup k = tools.reverse.find? (fun t => t.name == k) := by
  unfold build_tools_map
  rw [lookup_foldl_insert]
  simp [List.lookup]

theorem execute_tool_eq_find (tool_name : String) (tools : List Tool) (args : Json) :
    execute_tool tool_name tools args
      = match tools.reverse.find? (fun t => t.name == tool_name) with
        | some t =>
          match t.body args with
          | .ok result => (result, [tool_name])
          | .exn e =>
            (Json.obj [("error", Json.str ("Tool execution failed: " ++ e))], [tool_name])
        | none =>
          (Json.obj [("error", Json.str ("Tool '" ++ tool_name ++ "' not found"))], []) := by
  unfold execute_tool
  simp only []
  rw [lookup_build_tools_map]

theorem tool_call_loop_ok (jloads : String → PyResult Json) (tools : List Tool)
    (argsOf : ToolCall → Json) :
    ∀ (cs : List ToolCall) (msgs : List TranscriptEntry),
      (∀ tc ∈ cs, jloads tc.argumentsJson = .ok (argsOf tc)) →
      ∃ inv, tool_call_loop jloads tools cs msgs =
        (.ok (msgs ++ cs.map (fun tc =>
          TranscriptEntry.toolMsg tc.id
            (Json.dumps (execute_tool tc.name tools (argsOf tc)).1))), inv) := by
  intro cs
  induction cs with
  | nil =>
    intro msgs _
    exact ⟨[], by simp [tool_call_loop]⟩
  | cons tc rest ih =>
    intro msgs hdec
    have htc : jloads tc.argumentsJson = .ok (argsOf tc) :=
      hdec tc (List.mem_cons_self tc rest)
    have hrest : ∀ u ∈ rest, jloads u.argumentsJson = .ok (argsOf u) :=
      fun u hu => hdec u (List.mem_cons_of_mem tc hu)
    obtain ⟨inv, hinv⟩ := ih
      (msgs ++ [TranscriptEntry.toolMsg tc.id
        (Json.dumps (execute_tool tc.name tools (argsOf tc)).1)]) hrest
    refine ⟨(execute_tool tc.name tools (argsOf tc)).2 ++ inv, ?_⟩
    simp only [tool_call_loop, htc, hinv]
    simp

theorem tool_call_loop_exn (jloads : String → PyResult Json) (tools : List Tool)
    (argsOf : ToolCall → Json) (tc : ToolCall) (post : List ToolCall) (m : String)
    (hfail : jloads tc.argumentsJson = .exn m) :
    ∀ (pre : List ToolCall) (msgs : List TranscriptEntry),
      (∀ u ∈ pre, jloads u.argumentsJson = .ok (argsOf u)) →
      (tool_call_loop jloads tools (pre ++ tc :: post) msgs).1 = .exn m := by
  intro pre
  induction pre with
  | nil =>
    intro msgs _
    simp [tool_call_loop, hfail]
  | cons u rest ih =>
    intro msgs hpre
    have hu : jloads u.argumentsJson = .ok (argsOf u) :=
      hpre u (List.mem_cons_self u rest)
    have hrest : ∀ w ∈ rest, jloads w.argumentsJson = .ok (argsOf w) :=
      fun w hw => hpre w (List.mem_cons_of_mem u hw)
    simp only [List.cons_append, tool_call_loop, hu]
    exact ih _ hrest

theorem listContainsSeq_iff (pat : List Char) :
    ∀ l : List Char, listContainsSeq pat l = true ↔ pat <:+: l := by
  intro l
  induction l with
  | nil => simp [listContainsSeq, List.isEmpty_iff, List.infix_nil]
  | cons c rest ih =>
    simp [listContainsSeq, Bool.or_eq_true, List.isPrefixOf_iff_prefix, ih,
      List.infix_cons_iff]

theorem pySplitChar_ne_nil (sep : Char) (s : List Char) : pySplitChar sep s ≠ [] := by
  induction s with
  | nil => simp [pySplitChar]
  | cons c rest ih =>
    simp only [pySplitChar]
    by_cases h : c = sep
    · simp [h]
    · rw [if_neg h]
      cases hr : pySplitChar sep rest with
      | nil => simp
      | cons hd tl => simp

theorem pySplitChar_spec (sep : Char) :
    ∀ (s : List Char) (h : List Char) (t : List (List Char)),
      pySplitChar sep s = h :: t → h <+: s ∧ ∀ p ∈ t, p <:+: s := by
  intro s
  induction s with
  | nil =>
    intro h t he
    simp only [pySplitChar] at he
    injection he with h1 h2
    subst h1
    subst h2
    exact ⟨List.nil_prefix, by simp⟩
  | cons c rest ih =>
    intro h t he
    simp only [pySplitChar] at he
    by_cases hc : c = sep
    · rw [if_pos hc] at he
      injection he with h1 h2
      subst h1
      subst h2
      refine ⟨List.nil_prefix, ?_⟩
      intro p hp
      cases hr : pySplitChar sep rest with
      | nil => exact absurd hr (pySplitChar_ne_nil sep rest)
      | cons hd tl =>
        rw [hr] at hp
        obtain ⟨hh, ht⟩ := ih hd tl hr
        rcases List.mem_cons.mp hp with rfl | hp2
        · exact List.infix_cons hh.isInfix
        · exact List.infix_cons (ht p hp2)
    · rw [if_neg hc] at he
      cases hr : pySplitChar sep rest with
      | nil => exact absurd hr (pySplitChar_ne_nil sep rest)
      | cons hd tl =>
        rw [hr] at he
        injection he with h1 h2
        subst h1
        subst h2
        obtain ⟨hh, ht⟩ := ih hd tl hr
        constructor
        · obtain ⟨u, hu⟩ := hh
          exact ⟨u, by simp [hu]⟩
        · intro p hp
          exact List.infix_cons (ht p hp)

theorem pyLines_infix_of_mem (s line : String) (h : line ∈ pyLines s) :
    line.toList <:+: s.toList := by
  unfold pyLines at h
  obtain ⟨p, hp, hline⟩ := List.mem_map.mp h
  have hpl : line.toList = p := by rw [← hline]; rfl
  rw [hpl]
  cases hr : pySplitChar '\n' s.toList with
  | nil => exact absurd hr (pySplitChar_ne_nil _ _)
  | cons hd tl =>
    obtain ⟨hh, ht⟩ := pySplitChar_spec '\n' s.toList hd tl hr
    rw [hr] at hp
    rcases List.mem_cons.mp hp with rfl | hmem
    · exact hh.isInfix
    · exact ht p hmem

theorem strContains_of_line (doc line pat : String) (hmem : line ∈ pyLines doc)
    (h : strContains line pat = true) : strContains doc pat = true := by
  rw [strContains, listContainsSeq_iff] at h ⊢
  exact h.trans (pyLines_infix_of_mem doc line hmem)

theorem param_desc_eq (doc name : String) :
    param_desc doc name =
      match (pyLines doc).find? (fun line => strContains line (name ++ ":")) with
      | some line => pyStrip (afterFirstColon line)
      | none => "Parameter: " ++ name := by
  unfold param_desc
  by_cases hc : strContains doc (name ++ ":") = true
  · rw [if_pos hc]
  · rw [if_neg hc]
    have hnone : (pyLines doc).find? (fun line => strContains line (name ++ ":")) = none := by
      rw [List.find?_eq_none]
      intro line hmem hcon
      exact hc (strContains_of_line doc line (name ++ ":") hmem hcon)
    rw [hnone]

theorem get_chat_response_tool_round
    (jloads : String → PyResult Json)
    (complete : CompletionRequest → PyResult AssistantMessage)
    (api_key user_message : String) (chat_history : List HistMsg)
    (agent_config : AgentConfig) (tools : List Tool) (am : AssistantMessage)
    (argsOf : ToolCall → Json)
    (hkey : api_key ≠ "")
    (h1 : complete (first_request user_message chat_history agent_config tools) = .ok am)
    (hne : am.tool_calls ≠ [])
    (hdec : ∀ tc ∈ am.tool_calls, jloads tc.argumentsJson = .ok (argsOf tc)) :
    ∃ inv,
      get_chat_response jloads complete api_key user_message chat_history agent_config tools =
        match complete (second_request user_message chat_history agent_config tools am argsOf) with
        | .exn e =>
          { result := some (classify_error e)
            requests := [first_request user_message chat_history agent_config tools,
                         second_request user_message chat_history agent_config tools am argsOf]
            invoked := inv }
        | .ok fm =>
          { result := fm.content
            requests := [first_request user_message chat_history agent_config tools,
                         second_request user_message chat_history agent_config tools am argsOf]
            invoked := inv } := by
  obtain ⟨inv, hloop⟩ := tool_call_loop_ok jloads tools argsOf am.tool_calls
    (build_messages user_message chat_history agent_config
      ++ [TranscriptEntry.assistantToolCalls am]) hdec
  refine ⟨inv, ?_⟩
  have hbe : am.tool_calls.isEmpty = false := List.isEmpty_eq_false.mpr hne
  have hsr : second_request user_message chat_history agent_config tools am argsOf
      = { messages := (build_messages user_message chat_history agent_config
            ++ [TranscriptEntry.assistantToolCalls am])
            ++ am.tool_calls.map (fun tc =>
                TranscriptEntry.toolMsg tc.id
                  (Json.dumps (execute_tool tc.name tools (argsOf tc)).1))
          tools := none
          tool_choice := none
          model := "gpt-4o-mini"
          temperature_tenths := 7
          max_tokens := 1000 } := by
    simp [second_request, List.append_assoc]
  rw [hsr]
  simp only [get_chat_response, h1, hbe, hloop]
  rw [if_neg hkey]
  simp

/-! ## Claim theorems -/

/-- C1: `execute_tool` never raises: a tool name carried by no tool in the
list yields `{error: "Tool '<name>' not found"}` with no callable invoked;
a tool whose body raises `m` yields
`{error: "Tool execution failed: <m>"}`; a tool whose body returns `r`
yields exactly `r`.  (The found tool is the one the name-to-callable dict
resolves: the last tool of the list with that name, i.e. the first match in
the reversed list.)  Three scenario instances share the binders. -/
theorem claim_C1
    (nameA : String) (toolsA : List Tool) (argsA : Json)
    (hA : ∀ t ∈ toolsA, t.name ≠ nameA)
    (nameB : String) (toolsB : List Tool) (argsB : Json) (tB : Tool) (mB : String)
    (hB : toolsB.reverse.find? (fun u => u.name == nameB) = some tB)
    (hBexn : tB.body argsB = .exn mB)
    (nameC : String) (toolsC : List Tool) (argsC : Json) (tC : Tool) (rC : Json)
    (hC : toolsC.reverse.find? (fun u => u.name == nameC) = some tC)
    (hCok : tC.body argsC = .ok rC) :
    execute_tool nameA toolsA argsA
      = (Json.obj [("error", Json.str ("Tool '" ++ nameA ++ "' not found"))], []) ∧
    execute_tool nameB toolsB argsB
      = (Json.obj [("error", Json.str ("Tool execution failed: " ++ mB))], [nameB]) ∧
    execute_tool nameC toolsC argsC = (rC, [nameC]) := by
  refine ⟨?_, ?_, ?_⟩
  · have hfind : toolsA.reverse.find? (fun t => t.name == nameA) = none := by
      rw [List.find?_eq_none]
      intro t ht hbeq
      exact hA t (List.mem_reverse.mp ht) (beq_iff_eq.mp hbeq)
    rw [execute_tool_eq_find, hfind]
  · rw [execute_tool_eq_find, hB]
    simp only [hBexn]
  · rw [execute_tool_eq_find, hC]
    simp only [hCok]

/-- Witness for C1 at concrete inputs. -/
theorem claim_C1_witness :
    execute_tool "missing_tool" [quote_tool] Json.null
      = (Json.obj [("error", Json.str ("Tool '" ++ "missing_tool" ++ "' not found"))], []) ∧
    execute_tool "raising_tool" [raising_tool] Json.null
      = (Json.obj [("error", Json.str ("Tool execution failed: " ++ "division by zero"))],
         ["raising_tool"]) ∧
    execute_tool "get_quote" [quote_tool] args_aapl
      = (Json.obj [("success", Json.bool true), ("price", Json.str "$185.50")], ["get_quote"]) :=
  claim_C1 "missing_tool" [quote_tool] Json.null
    (by intro t ht; rw [List.mem_singleton] at ht; subst ht; decide)
    "raising_tool" [raising_tool] Json.null raising_tool "division by zero" rfl rfl
    "get_quote" [quote_tool] args_aapl quote_tool
    (Json.obj [("success", Json.bool true), ("price", Json.str "$185.50")]) rfl rfl

/-- C2: pairing invariant.  When the first completion returns tool calls
(all of whose argument payloads decode), the orchestrator issues exactly two
completion requests; the second request carries no tool schemas, and its
transcript is the composed transcript, then the assistant tool-call message,
then exactly one tool-role message per requested call, in request order,
each tagged with that call's id and carrying the serialized result of
dispatching that call. -/
theorem claim_C2 (jloads : String → PyResult Json)
    (complete : CompletionRequest → PyResult AssistantMessage)
    (api_key user_message : String) (chat_history : List HistMsg)
    (agent_config : AgentConfig) (tools : List Tool) (am : AssistantMessage)
    (argsOf : ToolCall → Json)
    (hkey : api_key ≠ "")
    (h1 : complete (first_request user_message chat_history agent_config tools) = .ok am)
    (hne : am.tool_calls ≠ [])
    (hdec : ∀ tc ∈ am.tool_calls, jloads tc.argumentsJson = .ok (argsOf tc)) :
    (get_chat_response jloads complete api_key user_message chat_history
        agent_config tools).requests
      = [first_request user_message chat_history agent_config tools,
         second_request user_message chat_history agent_config tools am argsOf] ∧
    (second_request user_message chat_history agent_config tools am argsOf).tools = none ∧
    (second_request user_message chat_history agent_config tools am argsOf).messages
      = build_messages user_message chat_history agent_config
        ++ [TranscriptEntry.assistantToolCalls am]
        ++ am.tool_calls.map (fun tc =>
             TranscriptEntry.toolMsg tc.id
               (Json.dumps (execute_tool tc.name tools (argsOf tc)).1)) := by
  obtain ⟨inv, hout⟩ := get_chat_response_tool_round jloads complete api_key
    user_message chat_history agent_config tools am argsOf hkey h1 hne hdec
  refine ⟨?_, rfl, rfl⟩
  rw [hout]
  cases complete (second_request user_message chat_history agent_config tools am argsOf) <;> rfl

/-- Witness for C2 at concrete inputs. -/
theorem claim_C2_witness :
    (get_chat_response jloads_ok complete_two_round "key" "price of AAPL" [] cfg0
        [quote_tool]).requests
      = [first_request "price of AAPL" [] cfg0 [quote_tool],
         second_request "price of AAPL" [] cfg0 [quote_tool] am_quote argsOf0] ∧
    (second_request "price of AAPL" [] cfg0 [quote_tool] am_quote argsOf0).tools = none ∧
    (second_request "price of AAPL" [] cfg0 [quote_tool] am_quote argsOf0).messages
      = build_messages "price of AAPL" [] cfg0
        ++ [TranscriptEntry.assistantToolCalls am_quote]
        ++ am_quote.tool_calls.map (fun tc =>
             TranscriptEntry.toolMsg tc.id
               (Json.dumps (execute_tool tc.name [quote_tool] (argsOf0 tc)).1)) :=
  claim_C2 jloads_ok complete_two_round "key" "price of AAPL" [] cfg0 [quote_tool]
    am_quote argsOf0 (by decide) rfl (List.cons_ne_nil _ _) (fun _ _ => rfl)

/-- C4: no-tool shortcut.  When the first completion response carries zero
tool calls, `get_chat_response` returns its content, after exactly one
completion request and zero tool invocations. -/
theorem claim_C4 (jloads : String → PyResult Json)
    (complete : CompletionRequest → PyResult AssistantMessage)
    (api_key user_message : String) (chat_history : List HistMsg)
    (agent_config : AgentConfig) (tools : List Tool) (am : AssistantMessage)
    (hkey : api_key ≠ "")
    (h1 : complete (first_request user_message chat_history agent_config tools) = .ok am)
    (hzero : am.tool_calls = []) :
    get_chat_response jloads complete api_key user_message chat_history agent_config tools
      = { result := am.content
          requests := [first_request user_message chat_history agent_config tools]
          invoked := [] } := by
  have hbe : am.tool_calls.isEmpty = true := by rw [hzero]; rfl
  simp only [get_chat_response, h1, hbe]
  rw [if_neg hkey]
  simp

/-- Witness for C4 at concrete inputs. -/
theorem claim_C4_witness :
    get_chat_response jloads_ok complete_plain "key" "hi" [] cfg0 []
      = { result := am_plain.content
          requests := [first_request "hi" [] cfg0 []]
          invoked := [] } :=
  claim_C4 jloads_ok complete_plain "key" "hi" [] cfg0 [] am_plain (by decide) rfl rfl

/-- C5: missing-credential short-circuit.  With an empty configured API key
(the falsy value `get_api_key` yields when nothing is set),
`get_chat_response` returns the fixed setup-instructions string, issues zero
completion requests, and invokes zero tools, for every input. -/
theorem claim_C5 (jloads : String → PyResult Json)
    (complete : CompletionRequest → PyResult AssistantMessage)
    (user_message : String) (chat_history : List HistMsg)
    (agent_config : AgentConfig) (tools : List Tool) :
    get_chat_response jloads complete "" user_message chat_history agent_config tools
      = { result := some api_key_required_message, requests := [], invoked := [] } := by
  simp [get_chat_response]

/-- C8: provider-fault classification.  Scenario A: the first completion
raises; the returned string is the authentication message when the fault
text mentions `api_key`/`authentication` case-insensitively, else the
rate-limit message when it mentions `rate_limit`, else the generic message
embedding the fault text; only one completion request is issued.
Scenario B: the second completion raises; the same classification applies
to its message. -/
theorem claim_C8
    (jloadsA : String → PyResult Json)
    (completeA : CompletionRequest → PyResult AssistantMessage)
    (keyA umsgA : String) (histA : List HistMsg) (cfgA : AgentConfig)
    (toolsA : List Tool) (mA : String)
    (hkeyA : keyA ≠ "")
    (hexnA : completeA (first_request umsgA histA cfgA toolsA) = .exn mA)
    (jloadsB : String → PyResult Json)
    (completeB : CompletionRequest → PyResult AssistantMessage)
    (keyB umsgB : String) (histB : List HistMsg) (cfgB : AgentConfig)
    (toolsB : List Tool) (amB : AssistantMessage) (argsOfB : ToolCall → Json)
    (mB2 : String)
    (hkeyB : keyB ≠ "")
    (h1B : completeB (first_request umsgB histB cfgB toolsB) = .ok amB)
    (hneB : amB.tool_calls ≠ [])
    (hdecB : ∀ tc ∈ amB.tool_calls, jloadsB tc.argumentsJson = .ok (argsOfB tc))
    (h2B : completeB (second_request umsgB histB cfgB toolsB amB argsOfB) = .exn mB2) :
    ((get_chat_response jloadsA completeA keyA umsgA histA cfgA toolsA).result
       = some (if strContains (pyLower mA) "api_key"
                  || strContains (pyLower mA) "authentication"
               then authentication_error_message
               else if strContains (pyLower mA) "rate_limit" then rate_limit_message
               else "❌ **Error**: " ++ mA)
     ∧ (get_chat_response jloadsA completeA keyA umsgA histA cfgA toolsA).requests
       = [first_request umsgA histA cfgA toolsA])
    ∧ ((get_chat_response jloadsB completeB keyB umsgB histB cfgB toolsB).result
         = some (classify_error mB2)
       ∧ (get_chat_response jloadsB completeB keyB umsgB histB cfgB toolsB).requests
         = [first_request umsgB histB cfgB toolsB,
            second_request umsgB histB cfgB toolsB amB argsOfB]) := by
  constructor
  · have hA : get_chat_response jloadsA completeA keyA umsgA histA cfgA toolsA
        = { result := some (classify_error mA)
            requests := [first_request umsgA histA cfgA toolsA]
            invoked := [] } := by
      simp only [get_chat_response, hexnA]
      rw [if_neg hkeyA]
    rw [hA]
    exact ⟨rfl, rfl⟩
  · obtain ⟨inv, hout⟩ := get_chat_response_tool_round jloadsB completeB keyB
      umsgB histB cfgB toolsB amB argsOfB hkeyB h1B hneB hdecB
    rw [hout, h2B]
    exact ⟨rfl, rfl⟩

/-- Witness for C8: a first-round `rate_limit` fault yields the fixed
rate-limit message with no second completion; a second-round fault yields
its classified message after both requests. -/
theorem claim_C8_witness :
    ((get_chat_response jloads_ok complete_rate_limited "key" "hi" [] cfg0 []).result
       = some rate_limit_message
     ∧ (get_chat_response jloads_ok complete_rate_limited "key" "hi" [] cfg0 []).requests
       = [first_request "hi" [] cfg0 []])
    ∧ ((get_chat_response jloads_ok complete_second_faults "key" "hi" [] cfg0
          [quote_tool]).result
         = some (classify_error "connection reset")
       ∧ (get_chat_response jloads_ok complete_second_faults "key" "hi" [] cfg0
            [quote_tool]).requests
         = [first_request "hi" [] cfg0 [quote_tool],
            second_request "hi" [] cfg0 [quote_tool] am_quote argsOf0]) :=
  claim_C8 jloads_ok complete_rate_limited "key" "hi" [] cfg0 [] "rate_limit exceeded"
    (by decide) rfl
    jloads_ok complete_second_faults "key" "hi" [] cfg0 [quote_tool] am_quote argsOf0
    "connection reset" (by decide) rfl (List.cons_ne_nil _ _) (fun _ _ => rfl) rfl

/-- C3 counterexample: a tool call whose JSON argument payload fails to
decode does NOT lead to a tool-role error message and a second completion;
`json.loads` is called outside the dispatcher's `try`, so the decode error
escapes to the turn-level handler: only one completion request is issued,
no callable is invoked, and the whole turn returns the generic error string
embedding the decode message. -/
theorem claim_C3_counterexample :
    (get_chat_response jloads_fails complete_bad_args "key" "hello" [] cfg0 []).requests.length
      = 1 ∧
    (get_chat_response jloads_fails complete_bad_args "key" "hello" [] cfg0 []).result
      = some ("❌ **Error**: " ++ "Expecting value: line 1 column 1 (char 0)") ∧
    (get_chat_response jloads_fails complete_bad_args "key" "hello" [] cfg0 []).invoked
      = [] :=
  ⟨rfl, rfl, rfl⟩

/-- C3 (amended): when the JSON argument payload of any tool-call request
fails to decode (after the earlier requests decoded), the decode exception
propagates to the turn-level handler: `get_chat_response` returns the
classified error string for the decode message, issues no second completion
request, and appends no tool-role message (the turn is aborted rather than
recovered through the dispatcher path). -/
theorem claim_C3 (jloads : String → PyResult Json)
    (complete : CompletionRequest → PyResult AssistantMessage)
    (api_key user_message : String) (chat_history : List HistMsg)
    (agent_config : AgentConfig) (tools : List Tool) (am : AssistantMessage)
    (pre post : List ToolCall) (tc : ToolCall) (argsOf : ToolCall → Json) (m : String)
    (hkey : api_key ≠ "")
    (h1 : complete (first_request user_message chat_history agent_config tools) = .ok am)
    (hsplit : am.tool_calls = pre ++ tc :: post)
    (hpre : ∀ u ∈ pre, jloads u.argumentsJson = .ok (argsOf u))
    (hfail : jloads tc.argumentsJson = .exn m) :
    (get_chat_response jloads complete api_key user_message chat_history
        agent_config tools).result = some (classify_error m) ∧
    (get_chat_response jloads complete api_key user_message chat_history
        agent_config tools).requests
      = [first_request user_message chat_history agent_config tools] := by
  have hne : am.tool_calls.isEmpty = false := by
    rw [hsplit]; cases pre <;> rfl
  have hloop : (tool_call_loop jloads tools am.tool_calls
      (build_messages user_message chat_history agent_config
        ++ [TranscriptEntry.assistantToolCalls am])).1 = .exn m := by
    rw [hsplit]
    exact tool_call_loop_exn jloads tools argsOf tc post m hfail pre _ hpre
  simp only [get_chat_response, h1, hne]
  rw [if_neg hkey, hloop]
  exact ⟨rfl, rfl⟩

/-- Witness for the amended C3 at concrete inputs. -/
theorem claim_C3_witness :
    (get_chat_response jloads_fails complete_bad_args "key" "hi" [] cfg0
        [quote_tool]).result
      = some (classify_error "Expecting value: line 1 column 1 (char 0)") ∧
    (get_chat_response jloads_fails complete_bad_args "key" "hi" [] cfg0
        [quote_tool]).requests
      = [first_request "hi" [] cfg0 [quote_tool]] :=
  claim_C3 jloads_fails complete_bad_args "key" "hi" [] cfg0 [quote_tool] am_bad_args
    [] [] { id := "call_1", name := "get_quote", argumentsJson := "not json" }
    argsOf0 "Expecting value: line 1 column 1 (char 0)" (by decide) rfl rfl
    (fun u hu => absurd hu (List.not_mem_nil u)) rfl

/-- C6: schema round-trip.  `get_tool_definitions` produces exactly one
schema entry per tool in list order; the entry of tool `i` carries the
tool's name, lists one property per declared parameter in declaration order
(under the same names), types each parameter by its annotation (`integer`
for `int`, `number` for `float`, `boolean` for `bool`, `"string"`
otherwise), and its `required` array is exactly the names of the parameters
without a default value, in declaration order. -/
theorem claim_C6 (tools : List Tool) (i j : Nat) (hi : i < tools.length)
    (hj : j < (tools.getD i default_tool).params.length) :
    (get_tool_definitions tools).length = tools.length ∧
    ((get_tool_definitions tools).getD i default_function_def).name
      = (tools.getD i default_tool).name ∧
    ((get_tool_definitions tools).getD i default_function_def).properties.map
        ParamSchema.name
      = (tools.getD i default_tool).params.map Param.name ∧
    (((get_tool_definitions tools).getD i default_function_def).properties.getD j
        default_param_schema).type
      = (match ((tools.getD i default_tool).params.getD j default_param).annot with
         | .int => "integer"
         | .float => "number"
         | .bool => "boolean"
         | _ => "string") ∧
    ((get_tool_definitions tools).getD i default_function_def).required
      = ((tools.getD i default_tool).params.filter (fun p => !p.hasDefault)).map
          Param.name := by
  have hD : tools.getD i default_tool = tools[i] := List.getD_eq_getElem tools _ hi
  have hDf : (get_tool_definitions tools).getD i default_function_def
      = { name := tools[i].name
          description := tool_description tools[i]
          properties := tools[i].params.map (fun p =>
            { name := p.name
              type := param_type_of p.annot
              description := param_desc (tools[i].doc.getD "") p.name })
          required := (tools[i].params.filter (fun p => !p.hasDefault)).map Param.name } := by
    rw [get_tool_definitions, List.getD_eq_getElem?_getD, List.getElem?_map,
      List.getElem?_eq_getElem hi]
    rfl
  rw [hD] at hj
  refine ⟨by simp [get_tool_definitions], ?_, ?_, ?_, ?_⟩
  · rw [hD, hDf]
  · rw [hD, hDf]
    simp only [List.map_map]
    rfl
  · rw [hD, hDf]
    have hj2 : (tools[i].params.map (fun p =>
        ({ name := p.name
           type := param_type_of p.annot
           description := param_desc (tools[i].doc.getD "") p.name } : ParamSchema))).getD j
          default_param_schema
        = { name := tools[i].params[j].name
            type := param_type_of tools[i].params[j].annot
            description := param_desc (tools[i].doc.getD "") tools[i].params[j].name } := by
      rw [List.getD_eq_getElem?_getD, List.getElem?_map, List.getElem?_eq_getElem hj]
      rfl
    rw [hj2, List.getD_eq_getElem _ _ hj]
    rfl
  · rw [hD, hDf]

/-- Witness for C6 at the concrete introspected `get_stock_price` tool. -/
theorem claim_C6_witness :
    (get_tool_definitions [get_stock_price_tool]).length = [get_stock_price_tool].length ∧
    ((get_tool_definitions [get_stock_price_tool]).getD 0 default_function_def).name
      = ([get_stock_price_tool].getD 0 default_tool).name ∧
    ((get_tool_definitions [get_stock_price_tool]).getD 0 default_function_def).properties.map
        ParamSchema.name
      = ([get_stock_price_tool].getD 0 default_tool).params.map Param.name ∧
    (((get_tool_definitions [get_stock_price_tool]).getD 0 default_function_def).properties.getD 0
        default_param_schema).type
      = (match (([get_stock_price_tool].getD 0 default_tool).params.getD 0 default_param).annot with
         | .int => "integer"
         | .float => "number"
         | .bool => "boolean"
         | _ => "string") ∧
    ((get_tool_definitions [get_stock_price_tool]).getD 0 default_function_def).required
      = (([get_stock_price_tool].getD 0 default_tool).params.filter (fun p => !p.hasDefault)).map
          Param.name :=
  claim_C6 [get_stock_price_tool] 0 0 (by decide) (by decide)

/-- C7 counterexample: the overall description is NOT the first non-empty
documentation line.  The code takes `__doc__.split("\n")[0]`, the literal
first line, which is empty for `get_stock_price` (its docstring starts with
a newline), while the first non-empty line is the summary sentence. -/
theorem claim_C7_counterexample :
    tool_description get_stock_price_tool = "" ∧
    first_nonempty_line get_stock_price_doc
      = "    Get the current stock price and daily performance for a ticker symbol." ∧
    tool_description get_stock_price_tool ≠ first_nonempty_line get_stock_price_doc :=
  ⟨rfl, rfl, by decide⟩

/-- C7 (amended): for a tool with a non-empty docstring, the schema builder
uses the FIRST LINE of the documentation (empty when the documentation
begins with a line break) as the tool's overall description; for each
parameter whose name followed by a colon appears on some documentation
line, the parameter description is the remainder of the first such line
after its first colon, stripped; a parameter with no matching line gets the
placeholder `"Parameter: <name>"`. -/
theorem claim_C7 (t : Tool) (d : String)
    (hd : t.doc = some d) (hne : d ≠ "") (name line : String)
    (hline : (pyLines d).find? (fun l => strContains l (name ++ ":")) = some line)
    (name2 : String)
    (hnone : (pyLines d).find? (fun l => strContains l (name2 ++ ":")) = none) :
    tool_description t = (pyLines d).headD "" ∧
    param_desc d name = pyStrip (afterFirstColon line) ∧
    param_desc d name2 = "Parameter: " ++ name2 := by
  refine ⟨?_, ?_, ?_⟩
  · simp only [tool_description, hd]
    rw [if_neg hne]
  · rw [param_desc_eq, hline]
  · rw [param_desc_eq, hnone]

/-- Witness for the amended C7 at the concrete `get_stock_price` docstring. -/
theorem claim_C7_witness :
    tool_description get_stock_price_tool = (pyLines get_stock_price_doc).headD "" ∧
    param_desc get_stock_price_doc "symbol"
      = pyStrip (afterFirstColon
          "        symbol: Stock ticker symbol (e.g., AAPL, GOOGL, MSFT, TSLA)") ∧
    param_desc get_stock_price_doc "zzz" = "Parameter: " ++ "zzz" :=
  claim_C7 get_stock_price_tool get_stock_price_doc rfl (by decide) "symbol"
    "        symbol: Stock ticker symbol (e.g., AAPL, GOOGL, MSFT, TSLA)" rfl
    "zzz" rfl

/-- C9: order-id normalization.  `check_order_status` uppercases and strips
its argument and prepends `"ORD-"` when absent, so `"1001"` and
`"ord-1001"` resolve to the same order as `"ORD-1001"`; when the normalized
id is not a known order it returns the `success=false` mapping naming the
normalized id, with the sample order ids.  (The embedded function is total:
no input raises.) -/
theorem claim_C9 (s : String)
    (hmiss : ORDERS.lookup (normalize_order_id s) = none) :
    check_order_status "1001" = check_order_status "ORD-1001" ∧
    check_order_status "ord-1001" = check_order_status "ORD-1001" ∧
    normalize_order_id "1001" = "ORD-1001" ∧
    normalize_order_id "ord-1001" = "ORD-1001" ∧
    check_order_status s
      = Json.obj
          [("success", Json.bool false),
           ("error", Json.str ("Order '" ++ normalize_order_id s ++ "' not found")),
           ("suggestion",
             Json.str "Please verify your order ID. Valid formats: ORD-1001 or just 1001"),
           ("sample_orders",
             Json.arr [Json.str "ORD-1001", Json.str "ORD-1002",
                       Json.str "ORD-1003", Json.str "ORD-1004"])] := by
  refine ⟨rfl, rfl, rfl, rfl, ?_⟩
  simp only [check_order_status]
  rw [hmiss]

/-- Witness for C9 at an unknown order id. -/
theorem claim_C9_witness :
    check_order_status "1001" = check_order_status "ORD-1001" ∧
    check_order_status "ord-1001" = check_order_status "ORD-1001" ∧
    normalize_order_id "1001" = "ORD-1001" ∧
    normalize_order_id "ord-1001" = "ORD-1001" ∧
    check_order_status "nope"
      = Json.obj
          [("success", Json.bool false),
           ("error", Json.str ("Order '" ++ normalize_order_id "nope" ++ "' not found")),
           ("suggestion",
             Json.str "Please verify your order ID. Valid formats: ORD-1001 or just 1001"),
           ("sample_orders",
             Json.arr [Json.str "ORD-1001", Json.str "ORD-1002",
                       Json.str "ORD-1003", Json.str "ORD-1004"])] :=
  claim_C9 "nope" rfl

/-- C10: forecast-days clamping.  `get_weather_forecast` clamps `days` to
1..7 before use, so on the success path the returned `forecast` list has
exactly `min(clamped days, number of daily time entries)` entries — hence
never more than 7; and `MCPWeatherClient.get_forecast` applies the same
1..7 clamp to the `forecast_days` value of every upstream request it
issues. -/
theorem claim_C10 (dl : DateLib) (wc : AgentWeatherClient) (city : String)
    (days0 : Int) (data : McpForecastData)
    (hok : wc.get_forecast city (min (max days0 1) 7) = .ok (some data))
    (geocode : String → Option GeoLocation) (fetch : ForecastParams → PyResult Json)
    (has_session : Bool) (city2 : String) (days2 : Int) (p : ForecastParams)
    (hp : p ∈ (mcp_weather_get_forecast geocode fetch has_session city2 days2).2) :
    (∃ fc, (get_weather_forecast dl (some wc) city days0).field "forecast"
        = some (Json.arr fc)
      ∧ fc.length = min (min (max days0 1) 7).toNat data.daily.time.length
      ∧ fc.length ≤ 7) ∧
    (1 ≤ min (max days0 1) 7 ∧ min (max days0 1) 7 ≤ 7) ∧
    p.forecast_days = min (max days2 1) 7 := by
  have htn : ∀ a b : Int, (min a b).toNat = min a.toNat b.toNat :=
    fun a b => Monotone.map_min (fun _ _ h => Int.toNat_le_toNat h)
  refine ⟨?_, ⟨le_min (le_max_right days0 1) (by norm_num), min_le_right _ _⟩, ?_⟩
  · refine ⟨(List.range
        (min (min (max days0 1) 7) (Int.ofNat data.daily.time.length)).toNat).map
          (forecast_entry dl data.daily data.current.temperature_2m), ?_, ?_, ?_⟩
    · simp only [get_weather_forecast, hok]
      rfl
    · rw [List.length_map, List.length_range, htn]
      rfl
    · rw [List.length_map, List.length_range, htn]
      refine le_trans (min_le_left _ _) ?_
      exact Int.toNat_le.mpr (by exact_mod_cast min_le_right (max days0 1) 7)
  · simp only [mcp_weather_get_forecast] at hp
    cases hg : geocode city2 with
    | none =>
      rw [hg] at hp
      simp at hp
    | some loc =>
      rw [hg] at hp
      cases has_session with
      | false => simp at hp
      | true =>
        simp at hp
        rw [hp]

/-- Witness for C10 at concrete inputs (`days=3` on the agent side,
`days=10` clamped to 7 on the client side). -/
theorem claim_C10_witness :
    (∃ fc, (get_weather_forecast date_lib0 (some weather_client0) "London" 3).field "forecast"
        = some (Json.arr fc)
      ∧ fc.length = min (min (max (3:Int) 1) 7).toNat mcp_data0.daily.time.length
      ∧ fc.length ≤ 7) ∧
    (1 ≤ min (max (3:Int) 1) 7 ∧ min (max (3:Int) 1) 7 ≤ 7) ∧
    params0.forecast_days = min (max (10:Int) 1) 7 :=
  claim_C10 date_lib0 weather_client0 "London" 3 mcp_data0 rfl geo0 fetch0 true
    "London" 10 params0 (List.mem_singleton.mpr rfl)
